import Mathlib

/-!
Verification of the jmap-client request/response correlation engine.

This file gives a shallow embedding of the client found in src/client.rs and
the email query types found in src/email/query.rs, together with models of
the collaborator modules (core::session, core::response, the Error taxonomy,
the URL template machinery) that the repository declares but whose sources
are not part of the two files above; each such model is marked
"Modelled from the spec:" in its doc comment. HTTP transport is represented
by the outcome value it delivers (an error or a response with status,
content type and decoded JSON body), matching the specification's treatment
of the transport as an external collaborator. JSON serialization itself is
likewise external, so bodies are modelled at the level of parsed JSON trees.
-/

namespace Jmap

/-- Modelled from the spec: parsed JSON values, the boundary representation
for request and response bodies (JSON serialization itself is an excluded
external collaborator, so bodies appear here as already-lexed trees). -/
inductive Json where
  | null : Json
  | bool (b : Bool) : Json
  | num (n : Int) : Json
  | str (s : String) : Json
  | arr (xs : List Json) : Json
  | obj (kvs : List (String × Json)) : Json

/-- Lookup of a key in a JSON object; any other JSON shape has no keys. -/
def Json.lookup : Json → String → Option Json
  | .obj kvs, k => List.lookup k kvs
  | _, _ => none

/-- Modelled from the spec: the error taxonomy of section 7 (the crate's
Error enum is not among the provided sources). The problem variant carries
the parsed problem document, the server variant the rendered status. -/
inductive Error where
  | transport : Error
  | malformedSession : Error
  | malformedResponse : Error
  | malformedTemplate : Error
  | problem (doc : Json) : Error
  | server (status : String) : Error
  | missingVariable : Error

/-- True exactly on the structured-problem error variant. -/
def Error.isProblem : Error → Bool
  | .problem _ => true
  | _ => false

/-- True exactly on the bare server-error variant. -/
def Error.isServer : Error → Bool
  | .server _ => true
  | _ => false

/-- Modelled from the spec: one segment of a parsed URL template, either a
literal segment or a named variable reference (section 3, URLPart). -/
inductive URLPart where
  | lit (s : String) : URLPart
  | var (name : String) : URLPart
deriving DecidableEq

/-- Internal scanner for URL templates: walks the character list, the Bool
flag records whether we are inside a brace-delimited variable. -/
def templateScan : List Char → Bool → String → List URLPart → Except Error (List URLPart)
  | [], false, cur, acc =>
      .ok (acc ++ if cur.isEmpty then [] else [URLPart.lit cur])
  | [], true, _, _ => .error Error.malformedTemplate
  | c :: rest, false, cur, acc =>
      if c = '{' then
        templateScan rest true "" (acc ++ if cur.isEmpty then [] else [URLPart.lit cur])
      else if c = '}' then .error Error.malformedTemplate
      else templateScan rest false (cur.push c) acc
  | c :: rest, true, cur, acc =>
      if c = '}' then templateScan rest false "" (acc ++ [URLPart.var cur])
      else if c = '{' then .error Error.malformedTemplate
      else templateScan rest true (cur.push c) acc

/-- Modelled from the spec: URLPart.parse of section 4.1 (core::session is
not among the provided sources): parse a template string into a sequence of
literal and variable parts, failing with MalformedTemplate on unsupported
syntax (stray or unbalanced braces). -/
def URLPart.parse (template : String) : Except Error (List URLPart) :=
  templateScan template.toList false "" []

/-- Modelled from the spec: the Session snapshot of section 3 (core::session
is not among the provided sources): API endpoint, the three templated
endpoints, accounts, primary accounts and the opaque state token. The
primary accounts are the ordered (capability URI, account id) pairs that the
primary_accounts() iterator yields. -/
structure Session where
  apiUrl : String
  downloadUrl : String
  uploadUrl : String
  eventSourceUrl : String
  accounts : List (String × List String)
  primaryAccounts : List (String × String)
  state : String
deriving DecidableEq

/-- Standard base64 alphabet, table of 64 characters. -/
def base64Alphabet : List Char :=
  "ABCDEFGHIJKLMNOPQRSTUVWXYZabcdefghijklmnopqrstuvwxyz0123456789+/".toList

/-- Character of the base64 alphabet at a 6-bit index. -/
def b64Char (n : Nat) : Char := base64Alphabet.getD n 'A'

/-- Modelled from the spec: standard base64 encoding with padding of a byte
sequence, the behaviour of the external base64 crate called by
Credentials::basic. -/
def base64Encode : List Nat → String
  | b0 :: b1 :: b2 :: rest =>
      let n := (b0 % 256) * 65536 + (b1 % 256) * 256 + b2 % 256
      String.mk [b64Char (n / 262144), b64Char (n / 4096 % 64),
                 b64Char (n / 64 % 64), b64Char (n % 64)] ++ base64Encode rest
  | [b0, b1] =>
      let n := (b0 % 256) * 65536 + (b1 % 256) * 256
      String.mk [b64Char (n / 262144), b64Char (n / 4096 % 64),
                 b64Char (n / 64 % 64), '=']
  | [b0] =>
      let n := (b0 % 256) * 65536
      String.mk [b64Char (n / 262144), b64Char (n / 4096 % 64), '=', '=']
  | [] => ""

/-- UTF-8 encoding of one character, as natural numbers below 256. -/
def utf8EncodeCharNat (c : Char) : List Nat :=
  let n := c.toNat
  if n < 128 then [n]
  else if n < 2048 then [192 + n / 64, 128 + n % 64]
  else if n < 65536 then [224 + n / 4096, 128 + n / 64 % 64, 128 + n % 64]
  else [240 + n / 262144, 128 + n / 4096 % 64, 128 + n / 64 % 64, 128 + n % 64]

/-- UTF-8 bytes of a string, as natural numbers below 256. -/
def utf8Bytes (s : String) : List Nat := (s.toList.map utf8EncodeCharNat).flatten

/-- Credentials enum of src/client.rs: Basic holds the already
base64-encoded user:pass pair, Bearer the raw token. -/
inductive Credentials where
  | Basic (s : String) : Credentials
  | Bearer (s : String) : Credentials
deriving DecidableEq

/-- Credentials::basic of src/client.rs: base64-encode "username:password"
and wrap it in the Basic variant. -/
def Credentials.basic (username password : String) : Credentials :=
  Credentials.Basic (base64Encode (utf8Bytes (username ++ ":" ++ password)))

/-- Credentials::bearer of src/client.rs. -/
def Credentials.bearer (token : String) : Credentials :=
  Credentials.Bearer token

/-- Authorization header value computed at the top of Client::connect in
src/client.rs: "Basic " or "Bearer " followed by the stored string. -/
def authorizationValue : Credentials → String
  | .Basic s => "Basic " ++ s
  | .Bearer s => "Bearer " ++ s

/-- Modelled from the spec: the crate version baked into the user agent is
build metadata (CARGO_PKG_VERSION) not present in the sources; the spec only
requires the user agent to be a fixed string. -/
def cargoPkgVersion : String := "0.0.0"

/-- USER_AGENT constant of src/client.rs: "stalwart-jmap/" followed by the
crate version. -/
def USER_AGENT : String := "stalwart-jmap/" ++ cargoPkgVersion

/-- DEFAULT_TIMEOUT_MS constant of src/client.rs: 10 * 1000 milliseconds. -/
def DEFAULT_TIMEOUT_MS : Nat := 10 * 1000

/-- Header map a connected client carries, in the insertion order of
Client::connect in src/client.rs: user agent and authorization are inserted
before the session fetch, content type just before the client is built. -/
def connectHeaders (credentials : Credentials) : List (String × String) :=
  [("user-agent", USER_AGENT),
   ("authorization", authorizationValue credentials),
   ("content-type", "application/json")]

/-- Modelled from the spec: an HTTP response as the transport collaborator
delivers it to the client: status code, optional content-type header value,
and the body as a parsed JSON tree (none when the bytes are not JSON). -/
structure HttpResponse where
  status : Nat
  contentType : Option String
  body : Option Json

/-- Success test used by handle_error: reqwest's StatusCode::is_success,
true exactly for the 2xx range. -/
def isSuccess (status : Nat) : Bool := 200 ≤ status && status < 300

/-- Modelled from the spec: Display rendering of a status code, the string
stored in Error::Server; it is a function of the status code alone. -/
def statusDisplay (status : Nat) : String := toString status

/-- Modelled from the spec: serde deserialization of the problem-document
type carried by Error::Problem; a JSON object deserializes (its fields are
all optional), any other JSON shape fails. -/
def problemOfJson : Json → Option Json
  | .obj kvs => some (Json.obj kvs)
  | _ => none

/-- Client::handle_error of src/client.rs: a 2xx response is returned
unchanged; otherwise, when the content-type header is exactly
application/problem+json the body is deserialized into a problem document
(a failed deserialization propagates as a malformed-response error),
and any other non-2xx response becomes Error::Server of the rendered
status. -/
def handle_error (r : HttpResponse) : Except Error HttpResponse :=
  if isSuccess r.status then .ok r
  else if r.contentType = some "application/problem+json" then
    match r.body.bind problemOfJson with
    | some doc => .error (Error.problem doc)
    | none => .error Error.malformedResponse
  else .error (Error.server (statusDisplay r.status))

/-- String field of a JSON object, or none. -/
def Json.strField (j : Json) (k : String) : Option String :=
  match j.lookup k with
  | some (Json.str s) => some s
  | _ => none

/-- Modelled from the spec: decoding of one account entry, an object whose
keys are the capability URIs granted to the account. -/
def capSetOfJson : Json → Except Error (List String)
  | .obj kvs => .ok (kvs.map Prod.fst)
  | _ => .error Error.malformedSession

/-- Modelled from the spec: decoding of the accounts mapping of the session
document. -/
def accountsOfJson : Json → Except Error (List (String × List String))
  | .obj kvs => kvs.mapM (fun kv => do pure (kv.1, ← capSetOfJson kv.2))
  | _ => .error Error.malformedSession

/-- Modelled from the spec: decoding of the primary-accounts mapping,
capability URI to account id. -/
def primaryAccountsOfJson : Json → Except Error (List (String × String))
  | .obj kvs => kvs.mapM (fun kv =>
      match kv.2 with
      | Json.str a => .ok (kv.1, a)
      | _ => .error Error.malformedSession)
  | _ => .error Error.malformedSession

/-- Modelled from the spec: serde deserialization of a session document
(section 4.2: fails with MalformedSession if required fields are missing). -/
def sessionOfJson (j : Json) : Except Error Session := do
  let some apiUrl := j.strField "apiUrl" | .error Error.malformedSession
  let some downloadUrl := j.strField "downloadUrl" | .error Error.malformedSession
  let some uploadUrl := j.strField "uploadUrl" | .error Error.malformedSession
  let some eventSourceUrl := j.strField "eventSourceUrl" | .error Error.malformedSession
  let some accountsJson := j.lookup "accounts" | .error Error.malformedSession
  let accounts ← accountsOfJson accountsJson
  let some primaryJson := j.lookup "primaryAccounts" | .error Error.malformedSession
  let primaryAccounts ← primaryAccountsOfJson primaryJson
  let some state := j.strField "state" | .error Error.malformedSession
  pure { apiUrl, downloadUrl, uploadUrl, eventSourceUrl, accounts, primaryAccounts, state }

/-- Encoding of a Session back into its JSON document form; used to build
concrete transport outcomes in theorems. -/
def sessionToJson (s : Session) : Json :=
  Json.obj
    [("apiUrl", Json.str s.apiUrl),
     ("downloadUrl", Json.str s.downloadUrl),
     ("uploadUrl", Json.str s.uploadUrl),
     ("eventSourceUrl", Json.str s.eventSourceUrl),
     ("accounts", Json.obj (s.accounts.map (fun kv =>
        (kv.1, Json.obj (kv.2.map (fun c => (c, Json.obj []))))))),
     ("primaryAccounts", Json.obj (s.primaryAccounts.map (fun kv =>
        (kv.1, Json.str kv.2)))),
     ("state", Json.str s.state)]

/-- Modelled from the spec: one entry of a batch response, the
(method name, payload, call id) triple of the response correlator
(core::response is not among the provided sources). -/
structure ResponseEntry where
  name : String
  payload : Json
  callId : String

/-- Modelled from the spec: a parsed batch response, the echoed
session-state token and the ordered entries. -/
structure BatchResponse where
  sessionState : String
  methodResponses : List ResponseEntry

/-- Modelled from the spec: decoding of one method response, which must be
the three-element array [name, payload, callId]. -/
def entryOfJson : Json → Except Error ResponseEntry
  | .arr [Json.str name, payload, Json.str callId] =>
      .ok { name, payload, callId }
  | _ => .error Error.malformedResponse

/-- Modelled from the spec: parse of the response correlator (section 4.4):
a batch response document carries a sessionState string and a
methodResponses array of entries, anything else is MalformedResponse. -/
def parseResponse (j : Json) : Except Error BatchResponse := do
  let some sessionState := j.strField "sessionState" | .error Error.malformedResponse
  let some (Json.arr ms) := j.lookup "methodResponses" | .error Error.malformedResponse
  let methodResponses ← ms.mapM entryOfJson
  pure { sessionState, methodResponses }

/-- Modelled from the spec: entries_for of the response correlator: all
entries carrying the given call id, in response order. -/
def entries_for (r : BatchResponse) (callId : String) : List ResponseEntry :=
  r.methodResponses.filter (fun e => e.callId = callId)

/-- Client state of src/client.rs (the websockets-gated fields are compiled
out): cached Session, session URL, staleness flag, the three parsed URL
templates, timeout, headers and default account id. -/
structure Client where
  session : Session
  sessionUrl : String
  sessionOutdated : Bool
  uploadUrl : List URLPart
  downloadUrl : List URLPart
  eventSourceUrl : List URLPart
  timeout : Nat
  headers : List (String × String)
  defaultAccountId : String
deriving DecidableEq

/-- Fetch-and-decode pipeline shared by Client::connect and
Client::refresh_session in src/client.rs: take the transport outcome, run
handle_error, and deserialize the body into a Session. -/
def fetchSession (transport : Except Error HttpResponse) : Except Error Session := do
  let r ← transport
  let r ← handle_error r
  match r.body with
  | some j => sessionOfJson j
  | none => .error Error.malformedSession

/-- Client::connect of src/client.rs: build the authorization value and the
initial headers, fetch and decode the session, take the first primary
account as default account id (empty when there is none), add the
content-type header, parse the three URL templates and assemble the client
with the default timeout and a clear staleness flag. -/
def connect (url : String) (credentials : Credentials)
    (transport : Except Error HttpResponse) : Except Error Client :=
  match fetchSession transport with
  | .error e => .error e
  | .ok session =>
    let defaultAccountId := ((session.primaryAccounts.head?).map Prod.snd).getD ""
    match URLPart.parse session.downloadUrl with
    | .error e => .error e
    | .ok downloadUrl =>
      match URLPart.parse session.uploadUrl with
      | .error e => .error e
      | .ok uploadUrl =>
        match URLPart.parse session.eventSourceUrl with
        | .error e => .error e
        | .ok eventSourceUrl =>
          .ok { session, sessionUrl := url, sessionOutdated := false,
                uploadUrl, downloadUrl, eventSourceUrl,
                timeout := DEFAULT_TIMEOUT_MS,
                headers := connectHeaders credentials, defaultAccountId }

/-- Client::set_timeout of src/client.rs. -/
def set_timeout (c : Client) (timeout : Nat) : Client := { c with timeout }

/-- Client::set_default_account_id of src/client.rs. -/
def set_default_account_id (c : Client) (accountId : String) : Client :=
  { c with defaultAccountId := accountId }

/-- Client::default_account_id of src/client.rs. -/
def default_account_id (c : Client) : String := c.defaultAccountId

/-- Client::is_session_updated of src/client.rs: negation of the
session_outdated flag. -/
def is_session_updated (c : Client) : Bool := !c.sessionOutdated

/-- Exchange pipeline of Client::send of src/client.rs: POST the batch,
classify errors with handle_error, and deserialize the body into a batch
response. -/
def sendResult (transport : Except Error HttpResponse) : Except Error BatchResponse := do
  let r ← transport
  let r ← handle_error r
  match r.body with
  | some j => parseResponse j
  | none => .error Error.malformedResponse

/-- Staleness update and result of Client::send of src/client.rs: the
response obtained through sendResult is compared on success against the
cached Session's token; a differing echoed token stores true into the
staleness flag, an equal token stores nothing, and a failed exchange leaves
the client untouched. -/
def send (c : Client) (transport : Except Error HttpResponse) :
    Client × Except Error BatchResponse :=
  match sendResult transport with
  | .error e => (c, .error e)
  | .ok resp =>
      if resp.sessionState ≠ c.session.state then
        ({ c with sessionOutdated := true }, .ok resp)
      else (c, .ok resp)

/-- Folded iteration of send over a list of transport outcomes, keeping only
the evolving client state. -/
def sendMany (c : Client) (transports : List (Except Error HttpResponse)) : Client :=
  transports.foldl (fun c tr => (send c tr).1) c

/-- Client::refresh_session of src/client.rs, with its exact assignment
order: fetch and decode the new session; then assign download_url, then
upload_url, then event_source_url, each template parse aborting with an
early return on failure after the previous assignments already happened;
finally replace the session and clear the staleness flag. -/
def refresh_session (c : Client) (transport : Except Error HttpResponse) :
    Client × Except Error Unit :=
  match fetchSession transport with
  | .error e => (c, .error e)
  | .ok session =>
    match URLPart.parse session.downloadUrl with
    | .error e => (c, .error e)
    | .ok dl =>
      let c := { c with downloadUrl := dl }
      match URLPart.parse session.uploadUrl with
      | .error e => (c, .error e)
      | .ok ul =>
        let c := { c with uploadUrl := ul }
        match URLPart.parse session.eventSourceUrl with
        | .error e => (c, .error e)
        | .ok es =>
          ({ c with eventSourceUrl := es, session := session,
                    sessionOutdated := false }, .ok ())

/-- Timeout passed to the transport by Client::send in src/client.rs: the
client's configurable timeout field. -/
def sendTimeoutMs (c : Client) : Nat := c.timeout

/-- Timeout passed to the transport by Client::refresh_session in
src/client.rs: the DEFAULT_TIMEOUT_MS constant, not the client's timeout
field. -/
def refreshSessionTimeoutMs (_c : Client) : Nat := DEFAULT_TIMEOUT_MS

/-- Timeout passed to the transport by Client::connect in src/client.rs:
the DEFAULT_TIMEOUT_MS constant. -/
def connectTimeoutMs : Nat := DEFAULT_TIMEOUT_MS

/-- Modelled from the spec: chrono's DateTime of Utc as used by the Before
and After filters, kept as the underlying unix timestamp (core::set's
from_timestamp constructor is not among the provided sources). -/
structure DateTime where
  secs : Int
deriving DecidableEq

/-- Modelled from the spec: from_timestamp of core::set, building a
DateTime from a unix timestamp. -/
def from_timestamp (t : Int) : DateTime := { secs := t }

/-- Modelled from the spec: chrono's serialization of a DateTime is an
RFC 3339 string; the exact rendering is a collaborator concern, modelled
here as an opaque injective rendering of the timestamp. -/
def DateTime.repr (d : DateTime) : String := toString d.secs

/-- Filter enum of src/email/query.rs: serde-untagged struct variants, each
with a single field renamed to the protocol property name. -/
inductive Filter where
  | InMailbox (value : String) : Filter
  | InMailboxOtherThan (value : List String) : Filter
  | Before (value : DateTime) : Filter
  | After (value : DateTime) : Filter
  | MinSize (value : Nat) : Filter
  | MaxSize (value : Nat) : Filter
  | AllInThreadHaveKeyword (value : String) : Filter
  | SomeInThreadHaveKeyword (value : String) : Filter
  | NoneInThreadHaveKeyword (value : String) : Filter
  | HasKeyword (value : String) : Filter
  | NotKeyword (value : String) : Filter
  | HasAttachment (value : Bool) : Filter
  | Text (value : String) : Filter
  | From (value : String) : Filter
  | To (value : String) : Filter
  | Cc (value : String) : Filter
  | Bcc (value : String) : Filter
  | Subject (value : String) : Filter
  | Body (value : String) : Filter
  | Header (value : List String) : Filter
deriving DecidableEq

/-- Filter::in_mailbox of src/email/query.rs. -/
def Filter.in_mailbox (value : String) : Filter := Filter.InMailbox value

/-- Serialization of a Filter under serde's untagged representation: each
struct variant becomes an object whose single key is the variant's renamed
field, holding the field's value. -/
def serializeFilter : Filter → Json
  | .InMailbox v => .obj [("inMailbox", .str v)]
  | .InMailboxOtherThan v => .obj [("inMailboxOtherThan", .arr (v.map Json.str))]
  | .Before v => .obj [("before", .str v.repr)]
  | .After v => .obj [("after", .str v.repr)]
  | .MinSize v => .obj [("minSize", .num (Int.ofNat v))]
  | .MaxSize v => .obj [("maxSize", .num (Int.ofNat v))]
  | .AllInThreadHaveKeyword v => .obj [("allInThreadHaveKeyword", .str v)]
  | .SomeInThreadHaveKeyword v => .obj [("someInThreadHaveKeyword", .str v)]
  | .NoneInThreadHaveKeyword v => .obj [("noneInThreadHaveKeyword", .str v)]
  | .HasKeyword v => .obj [("hasKeyword", .str v)]
  | .NotKeyword v => .obj [("notKeyword", .str v)]
  | .HasAttachment v => .obj [("hasAttachment", .bool v)]
  | .Text v => .obj [("text", .str v)]
  | .From v => .obj [("from", .str v)]
  | .To v => .obj [("to", .str v)]
  | .Cc v => .obj [("cc", .str v)]
  | .Bcc v => .obj [("bcc", .str v)]
  | .Subject v => .obj [("subject", .str v)]
  | .Body v => .obj [("body", .str v)]
  | .Header v => .obj [("header", .arr (v.map Json.str))]

/-- Position of a Filter's variant in declaration order. -/
def filterVariantIdx : Filter → Nat
  | .InMailbox _ => 0
  | .InMailboxOtherThan _ => 1
  | .Before _ => 2
  | .After _ => 3
  | .MinSize _ => 4
  | .MaxSize _ => 5
  | .AllInThreadHaveKeyword _ => 6
  | .SomeInThreadHaveKeyword _ => 7
  | .NoneInThreadHaveKeyword _ => 8
  | .HasKeyword _ => 9
  | .NotKeyword _ => 10
  | .HasAttachment _ => 11
  | .Text _ => 12
  | .From _ => 13
  | .To _ => 14
  | .Cc _ => 15
  | .Bcc _ => 16
  | .Subject _ => 17
  | .Body _ => 18
  | .Header _ => 19

/-- Wire discriminant keys of the Filter variants, in declaration order,
read off the serde rename attributes of src/email/query.rs. -/
def filterKeyTable : List String :=
  ["inMailbox", "inMailboxOtherThan", "before", "after", "minSize", "maxSize",
   "allInThreadHaveKeyword", "someInThreadHaveKeyword",
   "noneInThreadHaveKeyword", "hasKeyword", "notKeyword", "hasAttachment",
   "text", "from", "to", "cc", "bcc", "subject", "body", "header"]

/-- Keys of a serialized JSON object. -/
def Json.objKeys : Json → List String
  | .obj kvs => kvs.map Prod.fst
  | _ => []

/-- Comparator enum of src/email/query.rs: serde internally tagged with tag
field "property", variants renamed to the protocol property names. -/
inductive Comparator where
  | ReceivedAt : Comparator
  | Size : Comparator
  | From : Comparator
  | To : Comparator
  | Subject : Comparator
  | SentAt : Comparator
  | HasKeyword (keyword : String) : Comparator
  | AllInThreadHaveKeyword (keyword : String) : Comparator
  | SomeInThreadHaveKeyword (keyword : String) : Comparator
deriving DecidableEq

/-- Wire name stored in the "property" tag for each Comparator variant,
read off the serde rename attributes of src/email/query.rs. -/
def comparatorProperty : Comparator → String
  | .ReceivedAt => "receivedAt"
  | .Size => "size"
  | .From => "from"
  | .To => "to"
  | .Subject => "subject"
  | .SentAt => "sentAt"
  | .HasKeyword _ => "hasKeyword"
  | .AllInThreadHaveKeyword _ => "allInThreadHaveKeyword"
  | .SomeInThreadHaveKeyword _ => "someInThreadHaveKeyword"

/-- Payload fields a Comparator variant contributes beyond the tag. -/
def comparatorPayload : Comparator → List (String × Json)
  | .HasKeyword k => [("keyword", Json.str k)]
  | .AllInThreadHaveKeyword k => [("keyword", Json.str k)]
  | .SomeInThreadHaveKeyword k => [("keyword", Json.str k)]
  | _ => []

/-- Serialization of a Comparator under serde's internally tagged
representation: an object whose first key is the tag "property" holding the
variant's wire name, followed by the variant's payload fields. -/
def serializeComparator (c : Comparator) : Json :=
  Json.obj (("property", Json.str (comparatorProperty c)) :: comparatorPayload c)

/-- Concrete session used by witnesses: two endpoints carry template
variables, the mail capability has primary account A1, the state token is
s0. -/
def sampleSession : Session :=
  { apiUrl := "https://jmap.example.com/api"
    downloadUrl := "https://jmap.example.com/download/{accountId}/{blobId}"
    uploadUrl := "https://jmap.example.com/upload/{accountId}"
    eventSourceUrl := "https://jmap.example.com/eventsource"
    accounts := [("A1", ["urn:ietf:params:jmap:core", "urn:ietf:params:jmap:mail"])]
    primaryAccounts := [("urn:ietf:params:jmap:mail", "A1")]
    state := "s0" }

/-- Concrete connected client used by witnesses and counterexamples. -/
def sampleClient : Client :=
  { session := sampleSession
    sessionUrl := "https://jmap.example.com/jmap"
    sessionOutdated := false
    uploadUrl := [URLPart.lit "https://jmap.example.com/upload/", URLPart.var "accountId"]
    downloadUrl := [URLPart.lit "https://jmap.example.com/download"]
    eventSourceUrl := [URLPart.lit "https://jmap.example.com/eventsource"]
    timeout := DEFAULT_TIMEOUT_MS
    headers := connectHeaders (Credentials.bearer "tok")
    defaultAccountId := "A1" }

/-- Session whose upload template is malformed (an unclosed brace) while
its download template is fine; refreshing into it exhibits the partial
update of refresh_session. -/
def badTemplateSession : Session :=
  { sampleSession with
      downloadUrl := "https://jmap.example.com/d2"
      uploadUrl := "\x7bbad"
      state := "s1" }

/-- Transport outcome delivering badTemplateSession successfully. -/
def badTemplateTransport : Except Error HttpResponse :=
  Except.ok { status := 200, contentType := some "application/json",
              body := some (sessionToJson badTemplateSession) }

/-- Transport outcome delivering sampleSession successfully. -/
def okSessionTransport : Except Error HttpResponse :=
  Except.ok { status := 200, contentType := some "application/json",
              body := some (sessionToJson sampleSession) }

/-- Batch-response body echoing session state s0 with no entries. -/
def freshBody : Json :=
  Json.obj [("sessionState", Json.str "s0"), ("methodResponses", Json.arr [])]

/-- Batch-response body echoing the changed session state s1. -/
def staleBody : Json :=
  Json.obj [("sessionState", Json.str "s1"), ("methodResponses", Json.arr [])]

/-- Transport outcome for a send whose echoed token matches s0. -/
def freshSendTransport : Except Error HttpResponse :=
  Except.ok { status := 200, contentType := some "application/json",
              body := some freshBody }

/-- Transport outcome for a send whose echoed token differs from s0. -/
def staleSendTransport : Except Error HttpResponse :=
  Except.ok { status := 200, contentType := some "application/json",
              body := some staleBody }

/-- Non-2xx response with the problem content type but a body that is not
JSON, so the problem document fails to deserialize. -/
def problemNoBodyResponse : HttpResponse :=
  { status := 500, contentType := some "application/problem+json", body := none }

/-- Non-2xx response with the problem content type and a well-formed
problem document. -/
def problemResponse : HttpResponse :=
  { status := 404,
    contentType := some "application/problem+json",
    body := some (Json.obj
      [("type", Json.str "urn:ietf:params:jmap:error:limit"),
       ("status", Json.num 404),
       ("detail", Json.str "limit exceeded")]) }

/-- Non-2xx response without the problem content type. -/
def plainErrorResponse : HttpResponse :=
  { status := 503, contentType := some "text/html", body := none }

/-- Client produced by a concrete successful connect against
okSessionTransport. -/
def connectedSample : Client :=
  (connect "https://jmap.example.com/jmap" (Credentials.bearer "tok")
      okSessionTransport).toOption.getD sampleClient

/-- Wire discriminant key of one Filter value, read off the serde rename
attribute of its variant in src/email/query.rs. -/
def filterKey : Filter → String
  | .InMailbox _ => "inMailbox"
  | .InMailboxOtherThan _ => "inMailboxOtherThan"
  | .Before _ => "before"
  | .After _ => "after"
  | .MinSize _ => "minSize"
  | .MaxSize _ => "maxSize"
  | .AllInThreadHaveKeyword _ => "allInThreadHaveKeyword"
  | .SomeInThreadHaveKeyword _ => "someInThreadHaveKeyword"
  | .NoneInThreadHaveKeyword _ => "noneInThreadHaveKeyword"
  | .HasKeyword _ => "hasKeyword"
  | .NotKeyword _ => "notKeyword"
  | .HasAttachment _ => "hasAttachment"
  | .Text _ => "text"
  | .From _ => "from"
  | .To _ => "to"
  | .Cc _ => "cc"
  | .Bcc _ => "bcc"
  | .Subject _ => "subject"
  | .Body _ => "body"
  | .Header _ => "header"

/-- Session advertising no primary accounts at all. -/
def noPrimSession : Session := { sampleSession with primaryAccounts := [] }

/-- Transport outcome delivering noPrimSession successfully. -/
def noPrimTransport : Except Error HttpResponse :=
  Except.ok { status := 200, contentType := some "application/json",
              body := some (sessionToJson noPrimSession) }

/-- Parsed-JSON form of the qualifying three-entry response body of the
test_deserialize test in src/client.rs: Email/query tagged t0, Email/get
tagged t1, Thread/get tagged t2. -/
def sampleResponseBody : Json :=
  Json.obj
    [("sessionState", Json.str "123"),
     ("methodResponses", Json.arr
       [Json.arr [Json.str "Email/query", Json.obj
          [("accountId", Json.str "A1"),
           ("queryState", Json.str "abcdefg"),
           ("canCalculateChanges", Json.bool true),
           ("position", Json.num 0),
           ("total", Json.num 101),
           ("ids", Json.arr
             [Json.str "msg1023", Json.str "msg223", Json.str "msg110",
              Json.str "msg93", Json.str "msg91", Json.str "msg38",
              Json.str "msg36", Json.str "msg33", Json.str "msg11",
              Json.str "msg1"])],
          Json.str "t0"],
        Json.arr [Json.str "Email/get", Json.obj
          [("accountId", Json.str "A1"),
           ("state", Json.str "123456"),
           ("list", Json.arr
             [Json.obj [("id", Json.str "msg1023"), ("threadId", Json.str "trd194")],
              Json.obj [("id", Json.str "msg223"), ("threadId", Json.str "trd114")]]),
           ("notFound", Json.arr [])],
          Json.str "t1"],
        Json.arr [Json.str "Thread/get", Json.obj
          [("accountId", Json.str "A1"),
           ("state", Json.str "123456"),
           ("list", Json.arr
             [Json.obj [("id", Json.str "trd194"),
               ("emailIds", Json.arr
                 [Json.str "msg1020", Json.str "msg1021", Json.str "msg1023"])],
              Json.obj [("id", Json.str "trd114"),
               ("emailIds", Json.arr [Json.str "msg201", Json.str "msg223"])]]),
           ("notFound", Json.arr [])],
          Json.str "t2"]])]

/-- Batch response obtained by parsing sampleResponseBody (with an empty
placeholder that is never reached, since the parse succeeds). -/
def parsedSample : BatchResponse :=
  (parseResponse sampleResponseBody).toOption.getD
    { sessionState := "", methodResponses := [] }

theorem send_of_result_error (c : Client) {tr : Except Error HttpResponse}
    {e : Error} (h : sendResult tr = .error e) : send c tr = (c, .error e) := by
  unfold send
  rw [h]

theorem send_of_result_ok_eq (c : Client) {tr : Except Error HttpResponse}
    {r : BatchResponse} (h : sendResult tr = .ok r)
    (hs : r.sessionState = c.session.state) : send c tr = (c, .ok r) := by
  unfold send
  rw [h]
  simp [hs]

theorem send_of_result_ok_ne (c : Client) {tr : Except Error HttpResponse}
    {r : BatchResponse} (h : sendResult tr = .ok r)
    (hs : r.sessionState ≠ c.session.state) :
    send c tr = ({ c with sessionOutdated := true }, .ok r) := by
  unfold send
  rw [h]
  simp [hs]

theorem refresh_of_fetch_error (c : Client) {tr : Except Error HttpResponse}
    {e : Error} (h : fetchSession tr = .error e) :
    refresh_session c tr = (c, .error e) := by
  unfold refresh_session
  rw [h]

theorem refresh_of_dl_error (c : Client) {tr : Except Error HttpResponse}
    {s : Session} {e : Error} (hf : fetchSession tr = .ok s)
    (hd : URLPart.parse s.downloadUrl = .error e) :
    refresh_session c tr = (c, .error e) := by
  unfold refresh_session
  rw [hf]
  simp only []
  rw [hd]

theorem refresh_of_ul_error (c : Client) {tr : Except Error HttpResponse}
    {s : Session} {dl : List URLPart} {e : Error} (hf : fetchSession tr = .ok s)
    (hd : URLPart.parse s.downloadUrl = .ok dl)
    (hu : URLPart.parse s.uploadUrl = .error e) :
    refresh_session c tr = ({ c with downloadUrl := dl }, .error e) := by
  unfold refresh_session
  rw [hf]
  simp only []
  rw [hd]
  simp only []
  rw [hu]

theorem refresh_of_es_error (c : Client) {tr : Except Error HttpResponse}
    {s : Session} {dl ul : List URLPart} {e : Error}
    (hf : fetchSession tr = .ok s)
    (hd : URLPart.parse s.downloadUrl = .ok dl)
    (hu : URLPart.parse s.uploadUrl = .ok ul)
    (he : URLPart.parse s.eventSourceUrl = .error e) :
    refresh_session c tr = ({ c with downloadUrl := dl, uploadUrl := ul }, .error e) := by
  unfold refresh_session
  rw [hf]
  simp only []
  rw [hd]
  simp only []
  rw [hu]
  simp only []
  rw [he]

theorem refresh_of_all_ok (c : Client) {tr : Except Error HttpResponse}
    {s : Session} {dl ul es : List URLPart}
    (hf : fetchSession tr = .ok s)
    (hd : URLPart.parse s.downloadUrl = .ok dl)
    (hu : URLPart.parse s.uploadUrl = .ok ul)
    (he : URLPart.parse s.eventSourceUrl = .ok es) :
    refresh_session c tr =
      ({ c with downloadUrl := dl, uploadUrl := ul, eventSourceUrl := es,
                session := s, sessionOutdated := false }, .ok ()) := by
  unfold refresh_session
  rw [hf]
  simp only []
  rw [hd]
  simp only []
  rw [hu]
  simp only []
  rw [he]

theorem refresh_ok_flag_false (c : Client) {tr : Except Error HttpResponse}
    (h : (refresh_session c tr).2 = .ok ()) :
    (refresh_session c tr).1.sessionOutdated = false := by
  cases hf : fetchSession tr with
  | error e => rw [refresh_of_fetch_error c hf] at h; cases h
  | ok s =>
    cases hd : URLPart.parse s.downloadUrl with
    | error e => rw [refresh_of_dl_error c hf hd] at h; cases h
    | ok dl =>
      cases hu : URLPart.parse s.uploadUrl with
      | error e => rw [refresh_of_ul_error c hf hd hu] at h; cases h
      | ok ul =>
        cases he : URLPart.parse s.eventSourceUrl with
        | error e => rw [refresh_of_es_error c hf hd hu he] at h; cases h
        | ok es => rw [refresh_of_all_ok c hf hd hu he]

theorem refresh_error_flag_same (c : Client) {tr : Except Error HttpResponse}
    {e : Error} (h : (refresh_session c tr).2 = .error e) :
    (refresh_session c tr).1.sessionOutdated = c.sessionOutdated := by
  cases hf : fetchSession tr with
  | error e => rw [refresh_of_fetch_error c hf]
  | ok s =>
    cases hd : URLPart.parse s.downloadUrl with
    | error e => rw [refresh_of_dl_error c hf hd]
    | ok dl =>
      cases hu : URLPart.parse s.uploadUrl with
      | error e => rw [refresh_of_ul_error c hf hd hu]
      | ok ul =>
        cases he : URLPart.parse s.eventSourceUrl with
        | error e => rw [refresh_of_es_error c hf hd hu he]
        | ok es => rw [refresh_of_all_ok c hf hd hu he] at h; cases h

theorem send_flag_mono (c : Client) (tr : Except Error HttpResponse)
    (h : c.sessionOutdated = true) : (send c tr).1.sessionOutdated = true := by
  cases hr : sendResult tr with
  | error e => rw [send_of_result_error c hr]; exact h
  | ok r =>
    by_cases hs : r.sessionState = c.session.state
    · rw [send_of_result_ok_eq c hr hs]; exact h
    · rw [send_of_result_ok_ne c hr hs]

/-- C1: after a successful send, an echoed session-state token equal to the
cached Session's token leaves the staleness flag untouched (so
is_session_updated keeps its prior value, in particular it stays true when
it was true), a differing token sets the flag; and a successful
refresh_session always resets the flag to false whatever it was before. -/
theorem send_staleness_and_refresh_reset
    (c : Client) (tr : Except Error HttpResponse) (resp : BatchResponse) :
    ((send c tr).2 = .ok resp →
      (resp.sessionState = c.session.state →
        is_session_updated (send c tr).1 = is_session_updated c) ∧
      (resp.sessionState ≠ c.session.state →
        (send c tr).1.sessionOutdated = true)) ∧
    ((refresh_session c tr).2 = .ok () →
      (refresh_session c tr).1.sessionOutdated = false) := by
  constructor
  · intro hok
    cases hr : sendResult tr with
    | error e => rw [send_of_result_error c hr] at hok; cases hok
    | ok r =>
      constructor
      · intro hs
        by_cases hrs : r.sessionState = c.session.state
        · rw [send_of_result_ok_eq c hr hrs]
        · rw [send_of_result_ok_ne c hr hrs] at hok
          cases hok
          exact absurd hs hrs
      · intro hs
        by_cases hrs : r.sessionState = c.session.state
        · rw [send_of_result_ok_eq c hr hrs] at hok
          cases hok
          exact absurd hrs hs
        · rw [send_of_result_ok_ne c hr hrs]
  · exact refresh_ok_flag_false c

/-- Closed witness for C1: a send echoing the cached token s0 leaves the
sample client fresh, a send echoing s1 marks it stale, and a successful
refresh of the stale client resets the flag. -/
theorem send_staleness_and_refresh_reset_witness :
    is_session_updated (send sampleClient freshSendTransport).1 =
      is_session_updated sampleClient ∧
    (send sampleClient staleSendTransport).1.sessionOutdated = true ∧
    (refresh_session { sampleClient with sessionOutdated := true }
        okSessionTransport).1.sessionOutdated = false :=
  ⟨((send_staleness_and_refresh_reset sampleClient freshSendTransport
      { sessionState := "s0", methodResponses := [] }).1 rfl).1 rfl,
   ((send_staleness_and_refresh_reset sampleClient staleSendTransport
      { sessionState := "s1", methodResponses := [] }).1 rfl).2 (by decide),
   (send_staleness_and_refresh_reset
      { sampleClient with sessionOutdated := true } okSessionTransport
      { sessionState := "s0", methodResponses := [] }).2 rfl⟩

/-- C5: send never auto-refreshes: whatever the exchange outcome, the
resulting client keeps the same cached Session, session URL, parsed URL
templates, headers, timeout and default account id; the whole state is
either exactly the old client or the old client with only the staleness
flag set, so the flag is the only field send may modify and the Session is
never fetched or replaced by send. -/
theorem send_frame (c : Client) (tr : Except Error HttpResponse) :
    (send c tr).1.session = c.session ∧
    (send c tr).1.sessionUrl = c.sessionUrl ∧
    (send c tr).1.uploadUrl = c.uploadUrl ∧
    (send c tr).1.downloadUrl = c.downloadUrl ∧
    (send c tr).1.eventSourceUrl = c.eventSourceUrl ∧
    (send c tr).1.headers = c.headers ∧
    (send c tr).1.timeout = c.timeout ∧
    (send c tr).1.defaultAccountId = c.defaultAccountId ∧
    ((send c tr).1 = c ∨ (send c tr).1 = { c with sessionOutdated := true }) := by
  cases hr : sendResult tr with
  | error e =>
    rw [send_of_result_error c hr]
    exact ⟨rfl, rfl, rfl, rfl, rfl, rfl, rfl, rfl, Or.inl rfl⟩
  | ok r =>
    by_cases hs : r.sessionState = c.session.state
    · rw [send_of_result_ok_eq c hr hs]
      exact ⟨rfl, rfl, rfl, rfl, rfl, rfl, rfl, rfl, Or.inl rfl⟩
    · rw [send_of_result_ok_ne c hr hs]
      exact ⟨rfl, rfl, rfl, rfl, rfl, rfl, rfl, rfl, Or.inr rfl⟩

/-- C10: send never clears the staleness flag: a stale client stays stale
under any sequence of sends, even ones whose echoed token matches the
cached one (an equal token leaves the flag exactly as it was); a
successful refresh_session clears the flag, a failed one leaves it
untouched, and the timeout and default-account setters never touch it, so
successful refresh is the only transition from stale back to fresh. -/
theorem send_never_clears_staleness :
    (∀ (c : Client) (trs : List (Except Error HttpResponse)),
       c.sessionOutdated = true → (sendMany c trs).sessionOutdated = true) ∧
    (∀ (c : Client) (tr : Except Error HttpResponse) (resp : BatchResponse),
       (send c tr).2 = .ok resp → resp.sessionState = c.session.state →
       (send c tr).1.sessionOutdated = c.sessionOutdated) ∧
    (∀ (c : Client) (tr : Except Error HttpResponse),
       (refresh_session c tr).2 = .ok () →
       (refresh_session c tr).1.sessionOutdated = false) ∧
    (∀ (c : Client) (tr : Except Error HttpResponse) (e : Error),
       (refresh_session c tr).2 = .error e →
       (refresh_session c tr).1.sessionOutdated = c.sessionOutdated) ∧
    (∀ (c : Client) (t : Nat),
       (set_timeout c t).sessionOutdated = c.sessionOutdated) ∧
    (∀ (c : Client) (a : String),
       (set_default_account_id c a).sessionOutdated = c.sessionOutdated) := by
  refine ⟨?_, ?_, ?_, ?_, ?_, ?_⟩
  · intro c trs
    induction trs generalizing c with
    | nil => intro h; exact h
    | cons tr rest ih => intro h; exact ih _ (send_flag_mono c tr h)
  · intro c tr resp hok hs
    cases hr : sendResult tr with
    | error e => rw [send_of_result_error c hr] at hok; cases hok
    | ok r =>
      by_cases hrs : r.sessionState = c.session.state
      · rw [send_of_result_ok_eq c hr hrs]
      · rw [send_of_result_ok_ne c hr hrs] at hok
        cases hok
        exact absurd hs hrs
  · intro c tr
    exact refresh_ok_flag_false c
  · intro c tr e
    exact refresh_error_flag_same c
  · intro c t; rfl
  · intro c a; rfl

/-- Closed witness for C10: a stale sample client stays stale across a
fresh-token and a changed-token send, an equal-token send leaves the fresh
client's flag unchanged, a successful refresh clears the stale flag, a
refresh failing on a malformed template keeps the flag, and the setters
keep it. -/
theorem send_never_clears_staleness_witness :
    (sendMany { sampleClient with sessionOutdated := true }
       [freshSendTransport, staleSendTransport]).sessionOutdated = true ∧
    (send sampleClient freshSendTransport).1.sessionOutdated =
       sampleClient.sessionOutdated ∧
    (refresh_session { sampleClient with sessionOutdated := true }
       okSessionTransport).1.sessionOutdated = false ∧
    (refresh_session sampleClient badTemplateTransport).1.sessionOutdated =
       sampleClient.sessionOutdated ∧
    (set_timeout sampleClient 5000).sessionOutdated = sampleClient.sessionOutdated ∧
    (set_default_account_id sampleClient "A2").sessionOutdated =
       sampleClient.sessionOutdated :=
  ⟨send_never_clears_staleness.1 _ _ rfl,
   send_never_clears_staleness.2.1 _ _ { sessionState := "s0", methodResponses := [] }
     rfl rfl,
   send_never_clears_staleness.2.2.1 _ _ rfl,
   send_never_clears_staleness.2.2.2.1 _ _ Error.malformedTemplate rfl,
   send_never_clears_staleness.2.2.2.2.1 _ _,
   send_never_clears_staleness.2.2.2.2.2 _ _⟩

/-- Counterexample to C2: refreshing the sample client into a session whose
download template is fine but whose upload template is malformed returns a
malformed-template error, yet the client state is not unchanged: the
download template has already been replaced while the cached Session (and
its state token) was not, exactly the partial field update the claim rules
out. -/
theorem refresh_session_partial_update_cex :
    (refresh_session sampleClient badTemplateTransport).2 =
      .error Error.malformedTemplate ∧
    (refresh_session sampleClient badTemplateTransport).1 ≠ sampleClient ∧
    (refresh_session sampleClient badTemplateTransport).1.downloadUrl ≠
      sampleClient.downloadUrl ∧
    (refresh_session sampleClient badTemplateTransport).1.session =
      sampleClient.session :=
  ⟨rfl, by decide, by decide, rfl⟩

/-- C2 (amended): refresh_session replaces the Session, the three parsed
templates and the staleness flag together when everything succeeds; on a
transport error or a malformed session document the state is completely
unchanged; but a template-parse failure is only an early return: templates
parsed before the failing one have already been replaced while the Session,
the remaining templates and the flag are untouched. -/
theorem refresh_session_characterization
    (c : Client) (tr : Except Error HttpResponse) :
    (∀ e, fetchSession tr = .error e → refresh_session c tr = (c, .error e)) ∧
    (∀ s, fetchSession tr = .ok s →
      (∀ e, URLPart.parse s.downloadUrl = .error e →
         refresh_session c tr = (c, .error e)) ∧
      (∀ dl e, URLPart.parse s.downloadUrl = .ok dl →
         URLPart.parse s.uploadUrl = .error e →
         refresh_session c tr = ({ c with downloadUrl := dl }, .error e)) ∧
      (∀ dl ul e, URLPart.parse s.downloadUrl = .ok dl →
         URLPart.parse s.uploadUrl = .ok ul →
         URLPart.parse s.eventSourceUrl = .error e →
         refresh_session c tr =
           ({ c with downloadUrl := dl, uploadUrl := ul }, .error e)) ∧
      (∀ dl ul es, URLPart.parse s.downloadUrl = .ok dl →
         URLPart.parse s.uploadUrl = .ok ul →
         URLPart.parse s.eventSourceUrl = .ok es →
         refresh_session c tr =
           ({ c with downloadUrl := dl, uploadUrl := ul, eventSourceUrl := es,
                     session := s, sessionOutdated := false }, .ok ()))) :=
  ⟨fun _ h => refresh_of_fetch_error c h,
   fun _ hf =>
     ⟨fun _ hd => refresh_of_dl_error c hf hd,
      fun _ _ hd hu => refresh_of_ul_error c hf hd hu,
      fun _ _ _ hd hu he => refresh_of_es_error c hf hd hu he,
      fun _ _ _ hd hu he => refresh_of_all_ok c hf hd hu he⟩⟩

/-- Closed witness for the amended C2: the partial-update shape at the
malformed upload template, and the full atomic replacement on a successful
refresh of a stale client. -/
theorem refresh_session_characterization_witness :
    refresh_session sampleClient badTemplateTransport =
      ({ sampleClient with
           downloadUrl := [URLPart.lit "https://jmap.example.com/d2"] },
       .error Error.malformedTemplate) ∧
    refresh_session { sampleClient with sessionOutdated := true }
        okSessionTransport =
      ({ sampleClient with
           downloadUrl := [URLPart.lit "https://jmap.example.com/download/",
                           URLPart.var "accountId", URLPart.lit "/",
                           URLPart.var "blobId"],
           uploadUrl := [URLPart.lit "https://jmap.example.com/upload/",
                         URLPart.var "accountId"],
           eventSourceUrl := [URLPart.lit "https://jmap.example.com/eventsource"],
           session := sampleSession, sessionOutdated := false }, .ok ()) :=
  ⟨((refresh_session_characterization sampleClient badTemplateTransport).2
      badTemplateSession rfl).2.1
      [URLPart.lit "https://jmap.example.com/d2"] Error.malformedTemplate rfl rfl,
   ((refresh_session_characterization { sampleClient with sessionOutdated := true }
      okSessionTransport).2 sampleSession rfl).2.2.2
      [URLPart.lit "https://jmap.example.com/download/", URLPart.var "accountId",
       URLPart.lit "/", URLPart.var "blobId"]
      [URLPart.lit "https://jmap.example.com/upload/", URLPart.var "accountId"]
      [URLPart.lit "https://jmap.example.com/eventsource"] rfl rfl rfl⟩

/-- Counterexample to C3: a 500 response whose content type is the problem
type but whose body fails to deserialize as a problem document yields a
malformed-response error, which is neither the structured problem error the
claim promises for every problem-typed non-2xx response nor a bare server
error. -/
theorem handle_error_problem_cex :
    isSuccess problemNoBodyResponse.status = false ∧
    problemNoBodyResponse.contentType = some "application/problem+json" ∧
    handle_error problemNoBodyResponse = .error Error.malformedResponse ∧
    Error.malformedResponse.isProblem = false ∧
    Error.malformedResponse.isServer = false :=
  ⟨rfl, rfl, rfl, rfl, rfl⟩

/-- C3 (amended): handle_error returns every 2xx response unchanged; a
non-2xx response with exact content type application/problem+json produces
the structured problem error when its body deserializes as a problem
document and a deserialization error otherwise; and a non-2xx response with
any other (or no) content type produces the bare server error rendered from
the status code alone. -/
theorem handle_error_classification (r : HttpResponse) :
    (isSuccess r.status = true → handle_error r = .ok r) ∧
    (isSuccess r.status = false →
      r.contentType = some "application/problem+json" →
      (∀ doc, r.body.bind problemOfJson = some doc →
         handle_error r = .error (Error.problem doc)) ∧
      (r.body.bind problemOfJson = none →
         handle_error r = .error Error.malformedResponse)) ∧
    (isSuccess r.status = false →
      r.contentType ≠ some "application/problem+json" →
      handle_error r = .error (Error.server (statusDisplay r.status))) := by
  refine ⟨?_, ?_, ?_⟩
  · intro h
    simp [handle_error, h]
  · intro h1 h2
    constructor
    · intro doc hdoc
      simp [handle_error, h1, h2, hdoc]
    · intro hdoc
      simp [handle_error, h1, h2, hdoc]
  · intro h1 h2
    simp [handle_error, h1, h2]

/-- Closed witness for the amended C3: a 2xx passes through, a parseable
problem body becomes the structured problem error, an unparseable one the
deserialization error, and a non-problem content type the bare server
error. -/
theorem handle_error_classification_witness :
    handle_error { status := 200, contentType := some "application/json",
                   body := some freshBody } =
      .ok { status := 200, contentType := some "application/json",
            body := some freshBody } ∧
    handle_error problemResponse =
      .error (Error.problem (Json.obj
        [("type", Json.str "urn:ietf:params:jmap:error:limit"),
         ("status", Json.num 404),
         ("detail", Json.str "limit exceeded")])) ∧
    handle_error problemNoBodyResponse = .error Error.malformedResponse ∧
    handle_error plainErrorResponse = .error (Error.server "503") :=
  ⟨(handle_error_classification _).1 rfl,
   ((handle_error_classification problemResponse).2.1 rfl rfl).1 _ rfl,
   ((handle_error_classification problemNoBodyResponse).2.1 rfl rfl).2 rfl,
   (handle_error_classification plainErrorResponse).2.2 rfl (by decide)⟩

theorem connect_of_fetch_error (url : String) (creds : Credentials)
    {tr : Except Error HttpResponse} {e : Error}
    (h : fetchSession tr = .error e) : connect url creds tr = .error e := by
  unfold connect
  rw [h]

theorem connect_of_dl_error (url : String) (creds : Credentials)
    {tr : Except Error HttpResponse} {s : Session} {e : Error}
    (hf : fetchSession tr = .ok s)
    (hd : URLPart.parse s.downloadUrl = .error e) :
    connect url creds tr = .error e := by
  unfold connect
  rw [hf]
  simp only []
  rw [hd]

theorem connect_of_ul_error (url : String) (creds : Credentials)
    {tr : Except Error HttpResponse} {s : Session} {dl : List URLPart} {e : Error}
    (hf : fetchSession tr = .ok s)
    (hd : URLPart.parse s.downloadUrl = .ok dl)
    (hu : URLPart.parse s.uploadUrl = .error e) :
    connect url creds tr = .error e := by
  unfold connect
  rw [hf]
  simp only []
  rw [hd]
  simp only []
  rw [hu]

theorem connect_of_es_error (url : String) (creds : Credentials)
    {tr : Except Error HttpResponse} {s : Session} {dl ul : List URLPart} {e : Error}
    (hf : fetchSession tr = .ok s)
    (hd : URLPart.parse s.downloadUrl = .ok dl)
    (hu : URLPart.parse s.uploadUrl = .ok ul)
    (he : URLPart.parse s.eventSourceUrl = .error e) :
    connect url creds tr = .error e := by
  unfold connect
  rw [hf]
  simp only []
  rw [hd]
  simp only []
  rw [hu]
  simp only []
  rw [he]

theorem connect_of_all_ok (url : String) (creds : Credentials)
    {tr : Except Error HttpResponse} {s : Session} {dl ul es : List URLPart}
    (hf : fetchSession tr = .ok s)
    (hd : URLPart.parse s.downloadUrl = .ok dl)
    (hu : URLPart.parse s.uploadUrl = .ok ul)
    (he : URLPart.parse s.eventSourceUrl = .ok es) :
    connect url creds tr = .ok
      { session := s, sessionUrl := url, sessionOutdated := false,
        uploadUrl := ul, downloadUrl := dl, eventSourceUrl := es,
        timeout := DEFAULT_TIMEOUT_MS, headers := connectHeaders creds,
        defaultAccountId := ((s.primaryAccounts.head?).map Prod.snd).getD "" } := by
  unfold connect
  rw [hf]
  simp only []
  rw [hd]
  simp only []
  rw [hu]
  simp only []
  rw [he]

theorem connect_ok_shape {url : String} {creds : Credentials}
    {tr : Except Error HttpResponse} {c : Client}
    (h : connect url creds tr = .ok c) :
    ∃ s dl ul es, fetchSession tr = .ok s ∧
      URLPart.parse s.downloadUrl = .ok dl ∧
      URLPart.parse s.uploadUrl = .ok ul ∧
      URLPart.parse s.eventSourceUrl = .ok es ∧
      c = { session := s, sessionUrl := url, sessionOutdated := false,
            uploadUrl := ul, downloadUrl := dl, eventSourceUrl := es,
            timeout := DEFAULT_TIMEOUT_MS, headers := connectHeaders creds,
            defaultAccountId :=
              ((s.primaryAccounts.head?).map Prod.snd).getD "" } := by
  cases hs : fetchSession tr with
  | error e => rw [connect_of_fetch_error url creds hs] at h; cases h
  | ok s =>
    cases hd : URLPart.parse s.downloadUrl with
    | error e => rw [connect_of_dl_error url creds hs hd] at h; cases h
    | ok dl =>
      cases hu : URLPart.parse s.uploadUrl with
      | error e => rw [connect_of_ul_error url creds hs hd hu] at h; cases h
      | ok ul =>
        cases he : URLPart.parse s.eventSourceUrl with
        | error e => rw [connect_of_es_error url creds hs hd hu he] at h; cases h
        | ok es =>
          rw [connect_of_all_ok url creds hs hd hu he] at h
          injection h with h
          exact ⟨s, dl, ul, es, rfl, hd, hu, he, h.symm⟩

/-- Counterexample to C4: after setting the client's timeout to 5000
milliseconds, send does use 5000, but the next refresh_session still issues
its request with the hard-coded 10000 millisecond default, so not every
network call uses the configured timeout. -/
theorem refresh_ignores_configured_timeout_cex :
    sendTimeoutMs (set_timeout sampleClient 5000) = 5000 ∧
    refreshSessionTimeoutMs (set_timeout sampleClient 5000) = 10000 ∧
    ¬ refreshSessionTimeoutMs (set_timeout sampleClient 5000) = 5000 := by
  decide

/-- C4 (amended): connect and refresh_session always issue their requests
with the DEFAULT_TIMEOUT_MS constant of 10000 milliseconds; only send uses
the client's configurable timeout, which starts at the same default after
connect and which set_timeout replaces for subsequent sends. -/
theorem timeout_usage :
    DEFAULT_TIMEOUT_MS = 10000 ∧
    connectTimeoutMs = DEFAULT_TIMEOUT_MS ∧
    (∀ c : Client, refreshSessionTimeoutMs c = DEFAULT_TIMEOUT_MS) ∧
    (∀ (c : Client) (t : Nat), sendTimeoutMs (set_timeout c t) = t) ∧
    (∀ (url : String) (creds : Credentials) (tr : Except Error HttpResponse)
       (c : Client), connect url creds tr = .ok c →
       sendTimeoutMs c = DEFAULT_TIMEOUT_MS) := by
  refine ⟨rfl, rfl, fun c => rfl, fun c t => rfl, ?_⟩
  intro url creds tr c h
  obtain ⟨s, dl, ul, es, _, _, _, _, hc⟩ := connect_ok_shape h
  rw [hc]
  rfl

/-- Closed witness for the amended C4: the refresh timeout of the sample
client is the default, a set timeout of 5000 reaches send, and the client
connect builds starts with the default send timeout. -/
theorem timeout_usage_witness :
    refreshSessionTimeoutMs sampleClient = DEFAULT_TIMEOUT_MS ∧
    sendTimeoutMs (set_timeout sampleClient 5000) = 5000 ∧
    sendTimeoutMs connectedSample = DEFAULT_TIMEOUT_MS :=
  ⟨timeout_usage.2.2.1 sampleClient,
   timeout_usage.2.2.2.1 sampleClient 5000,
   timeout_usage.2.2.2.2 "https://jmap.example.com/jmap"
     (Credentials.bearer "tok") okSessionTransport connectedSample rfl⟩

theorem base64_known_vector :
    base64Encode (utf8Bytes "user:pass") = "dXNlcjpwYXNz" := rfl

/-- C6: Credentials::basic produces the Authorization value "Basic "
followed by the base64 encoding of username, a colon and password, and
Credentials::bearer produces "Bearer " followed by the token; the header
map a connected client attaches to its requests carries exactly this
Authorization value, the fixed User-Agent, and (added for the batch POST)
a Content-Type of application/json, and connect installs exactly this
header map on the client it builds. -/
theorem credentials_and_headers :
    (∀ u p, authorizationValue (Credentials.basic u p) =
       "Basic " ++ base64Encode (utf8Bytes (u ++ ":" ++ p))) ∧
    (∀ t, authorizationValue (Credentials.bearer t) = "Bearer " ++ t) ∧
    (∀ creds, (connectHeaders creds).lookup "authorization" =
         some (authorizationValue creds) ∧
       (connectHeaders creds).lookup "user-agent" = some USER_AGENT ∧
       (connectHeaders creds).lookup "content-type" =
         some "application/json") ∧
    (∀ (url : String) (creds : Credentials) (tr : Except Error HttpResponse)
       (c : Client), connect url creds tr = .ok c →
       c.headers = connectHeaders creds) := by
  refine ⟨fun u p => rfl, fun t => rfl, fun creds => ⟨rfl, rfl, rfl⟩, ?_⟩
  intro url creds tr c h
  obtain ⟨s, dl, ul, es, _, _, _, _, hc⟩ := connect_ok_shape h
  rw [hc]

/-- Closed witness for C6: the header map of the concretely connected
sample client is exactly the connect header map of its credentials. -/
theorem credentials_and_headers_witness :
    connectedSample.headers = connectHeaders (Credentials.bearer "tok") :=
  credentials_and_headers.2.2.2 "https://jmap.example.com/jmap"
    (Credentials.bearer "tok") okSessionTransport connectedSample rfl

/-- C9: a client built by a successful connect has as default account id
the account id of the first pair of the decoded session's primary-accounts
sequence, with the empty string as fallback; and a session listing no
primary accounts does not make connect fail: whenever the fetch decodes
such a session and the three templates parse, connect succeeds and the
default account id is the empty string. -/
theorem connect_default_account_first_primary :
    (∀ (url : String) (creds : Credentials) (tr : Except Error HttpResponse)
       (c : Client), connect url creds tr = .ok c →
       default_account_id c =
         ((c.session.primaryAccounts.head?).map Prod.snd).getD "") ∧
    (∀ (url : String) (creds : Credentials) (tr : Except Error HttpResponse)
       (s : Session) (dl ul es : List URLPart),
       fetchSession tr = .ok s →
       s.primaryAccounts = [] →
       URLPart.parse s.downloadUrl = .ok dl →
       URLPart.parse s.uploadUrl = .ok ul →
       URLPart.parse s.eventSourceUrl = .ok es →
       ∃ c, connect url creds tr = .ok c ∧ default_account_id c = "") := by
  constructor
  · intro url creds tr c h
    obtain ⟨s, dl, ul, es, _, _, _, _, hc⟩ := connect_ok_shape h
    rw [hc]
    rfl
  · intro url creds tr s dl ul es hf hempty hd hu he
    refine ⟨_, connect_of_all_ok url creds hf hd hu he, ?_⟩
    show ((s.primaryAccounts.head?).map Prod.snd).getD "" = ""
    rw [hempty]
    rfl

/-- Closed witness for C9: the connected sample client's default account id
is the first primary account A1, and connecting against a session with no
primary accounts succeeds with an empty default account id. -/
theorem connect_default_account_first_primary_witness :
    default_account_id connectedSample =
      ((connectedSample.session.primaryAccounts.head?).map Prod.snd).getD "" ∧
    (∃ c, connect "https://jmap.example.com/jmap" (Credentials.bearer "tok")
        noPrimTransport = .ok c ∧ default_account_id c = "") :=
  ⟨connect_default_account_first_primary.1 "https://jmap.example.com/jmap"
     (Credentials.bearer "tok") okSessionTransport connectedSample rfl,
   connect_default_account_first_primary.2 "https://jmap.example.com/jmap"
     (Credentials.bearer "tok") noPrimTransport noPrimSession
     [URLPart.lit "https://jmap.example.com/download/", URLPart.var "accountId",
      URLPart.lit "/", URLPart.var "blobId"]
     [URLPart.lit "https://jmap.example.com/upload/", URLPart.var "accountId"]
     [URLPart.lit "https://jmap.example.com/eventsource"]
     rfl rfl rfl rfl rfl⟩

/-- C7: every email-query Filter serializes to a JSON object with exactly
one key, the variant's wire discriminant; the twenty discriminants, one per
variant in declaration order, are pairwise distinct, so distinct variants
carry distinct keys (witnessed by the key determining the variant); the
in_mailbox builder serializes to the inMailbox-keyed object of its mailbox
id; and every Comparator serializes with a property field holding its wire
name followed by its payload fields, as in the receivedAt and hasKeyword
examples. -/
theorem filter_comparator_wire_tags :
    (∀ f : Filter, (serializeFilter f).objKeys = [filterKey f]) ∧
    (∀ f : Filter, filterKey f = filterKeyTable.getD (filterVariantIdx f) "") ∧
    filterKeyTable.Nodup ∧
    filterKeyTable.length = 20 ∧
    (∀ f g : Filter, filterKey f = filterKey g →
       filterVariantIdx f = filterVariantIdx g) ∧
    (∀ m, serializeFilter (Filter.in_mailbox m) =
       Json.obj [("inMailbox", Json.str m)]) ∧
    (∀ c : Comparator, serializeComparator c =
       Json.obj (("property", Json.str (comparatorProperty c)) ::
         comparatorPayload c)) ∧
    comparatorProperty Comparator.ReceivedAt = "receivedAt" ∧
    (∀ k, serializeComparator (Comparator.HasKeyword k) =
       Json.obj [("property", Json.str "hasKeyword"),
                 ("keyword", Json.str k)]) := by
  have hinv : ∀ f : Filter,
      filterKeyTable.indexOf (filterKey f) = filterVariantIdx f := by
    intro f
    cases f <;> rfl
  refine ⟨?_, ?_, by decide, by decide, ?_, fun m => rfl, fun c => rfl, rfl,
          fun k => rfl⟩
  · intro f
    cases f <;> rfl
  · intro f
    cases f <;> rfl
  · intro f g h
    rw [← hinv f, ← hinv g, h]

/-- Closed witness for C7: equal keys on two concrete filters force equal
variants, and the in_mailbox example has the claimed one-key shape. -/
theorem filter_comparator_wire_tags_witness :
    filterVariantIdx (Filter.InMailbox "a") =
      filterVariantIdx (Filter.InMailbox "b") ∧
    serializeFilter (Filter.in_mailbox "m1") =
      Json.obj [("inMailbox", Json.str "m1")] :=
  ⟨filter_comparator_wire_tags.2.2.2.2.1 (Filter.InMailbox "a")
     (Filter.InMailbox "b") rfl,
   filter_comparator_wire_tags.2.2.2.2.2.1 "m1"⟩

/-- C8: parsing the qualifying three-entry response body succeeds with the
echoed token 123 and three entries; entries_for of t1 returns exactly one
entry, the Email/get response whose payload has accountId A1 and a
two-element list; and entries_for of an unknown call id is the empty
sequence, not an error. -/
theorem sample_response_correlation :
    (parseResponse sampleResponseBody).isOk = true ∧
    parsedSample.sessionState = "123" ∧
    parsedSample.methodResponses.length = 3 ∧
    (entries_for parsedSample "t1").length = 1 ∧
    (entries_for parsedSample "t1").map ResponseEntry.name = ["Email/get"] ∧
    (entries_for parsedSample "t1").map
      (fun e => e.payload.strField "accountId") = [some "A1"] ∧
    (entries_for parsedSample "t1").map
      (fun e => match e.payload.lookup "list" with
        | some (Json.arr xs) => xs.length
        | _ => 0) = [2] ∧
    (entries_for parsedSample "t1").map ResponseEntry.callId = ["t1"] ∧
    entries_for parsedSample "nonexistent" = [] :=
  ⟨rfl, rfl, rfl, rfl, rfl, rfl, rfl, rfl, rfl⟩

end Jmap
